import Mathlib

/-
  Verification of the bootstrap & configuration lifecycle of the
  biblioteca-config repository: a shallow embedding of
  `src/lib/database/initialization.ts` (the `DatabaseInitializer` class)
  and of the phase-router logic of the five-phase `SystemInitializer`
  component (`checkSystemState` and its completion handlers), over an
  explicit model of the external document store.
-/

namespace Biblioteca

/-- JSON-like runtime value stored in a document field.  Firestore documents
are schemaless at runtime (the TypeScript casts `data() as OrgSettings` are
unchecked), so fields are modelled untyped. `timestamp` stands for a resolved
`serverTimestamp()` sentinel. -/
inductive Value : Type where
  | str : String → Value
  | int : Int → Value
  | bool : Bool → Value
  | arr : List Value → Value
  | obj : List (String × Value) → Value
  | timestamp : Nat → Value

/-- A document is an ordered association list of top-level fields, the runtime
shape of a JavaScript object. -/
abbrev Doc : Type := List (String × Value)

/-- Field lookup on a document: the first binding of the key, `none` when the
key is absent (JavaScript `undefined`). -/
def getField : Doc → String → Option Value
  | [], _ => none
  | (k, v) :: rest, k' => if k = k' then some v else getField rest k'

/-- JavaScript object-spread `\x7b...a, ...b\x7d` on association lists: the keys of
`a` in order with values overridden by `b` where `b` binds them, followed by
the keys of `b` not bound in `a`. -/
def spread (a b : Doc) : Doc :=
  a.map (fun kv => match getField b kv.1 with
    | some v => (kv.1, v)
    | none => kv)
  ++ b.filter (fun kv => (getField a kv.1).isNone)

/-- JavaScript truthiness of a field value (with `none` = `undefined`). -/
def truthy : Option Value → Bool
  | some (Value.str t) => !(t == "")
  | some (Value.int n) => !(n == 0)
  | some (Value.bool b) => b
  | some (Value.arr _) => true
  | some (Value.obj _) => true
  | some (Value.timestamp _) => true
  | none => false

/-- The external document store: document contents addressed by collection and
document id, together with a transport-failure oracle saying which reads fail
during the run under consideration. -/
structure FireStore where
  data : String → String → Option Doc
  fail : String → String → Bool

/-- `getDoc`: read a document snapshot; `Except.error` models a rejected
promise (transport failure), `Except.ok none` a non-existing document. -/
def getDocF (s : FireStore) (c d : String) : Except String (Option Doc) :=
  if s.fail c d then Except.error "unavailable" else Except.ok (s.data c d)

/-- `setDoc`: overwrite one document, leaving every other address and the
failure oracle unchanged. -/
def setDocF (s : FireStore) (c d : String) (document : Doc) : FireStore :=
  { s with data := fun c' d' => if c' = c ∧ d' = d then some document else s.data c' d' }

/- Compiled-in defaults of `initialization.ts`. -/

/-- `defaultAppSettings` from `initialization.ts`. -/
def defaultAppSettings : Doc :=
  [("AppVersion", Value.int 1),
   ("DefaultLoanDuration", Value.int 21),
   ("GlobalLimits", Value.int 5),
   ("MaintenanceMode", Value.bool true)]

/-- `defaultNotificationSettings` from `initialization.ts`. -/
def defaultNotificationSettings : Doc :=
  [("ActiveNotificationTypes", Value.arr [Value.str "email", Value.str "sms", Value.str "whatsapp"]),
   ("notificationDelays", Value.obj
     [("overDueReminder", Value.int 1), ("reminderBeforeDue", Value.int 3)]),
   ("predefinedMessages", Value.obj
     [("overdue", Value.str "Your borrowed book is overdue. Please return it as soon as possible."),
      ("reminder", Value.str "Don\x27t forget to return your book on time!"),
      ("reservationReady", Value.str "Your reserved book is now available for pickup.")])]

/-- The serialized weekday opening-hours interval of `defaultOrgSettings`. -/
def weekdayHours : String := "\x7b\"open\": \"08:00\", \"close\": \"18:00\"\x7d"

/-- The serialized Saturday opening-hours interval of `defaultOrgSettings`. -/
def saturdayHours : String := "\x7b\"open\": \"10:00\", \"close\": \"18:00\"\x7d"

/-- The serialized Sunday closed sentinel of `defaultOrgSettings`: the literal
`closed` on both the open and the close field. -/
def sundayClosed : String := "\x7b\"open\": \"closed\", \"close\": \"closed\"\x7d"

/-- The `OpeningHours` nested object of `defaultOrgSettings`. -/
def defaultOpeningHours : List (String × Value) :=
  [("Monday", Value.str weekdayHours),
   ("Tuesday", Value.str weekdayHours),
   ("Wednesday", Value.str weekdayHours),
   ("Thursday", Value.str weekdayHours),
   ("Friday", Value.str weekdayHours),
   ("Saturday", Value.str saturdayHours),
   ("Sunday", Value.str sundayClosed)]

/-- `defaultOrgSettings` from `initialization.ts`. -/
def defaultOrgSettings : Doc :=
  [("Address", Value.str ""),
   ("Contact", Value.obj
     [("Email", Value.str ""),
      ("Facebook", Value.str ""),
      ("Instagram", Value.str ""),
      ("Phone", Value.str "+237 123456789"),
      ("WhatsApp", Value.str "+237 123456789")]),
   ("LateReturnPenalties", Value.arr [Value.str ""]),
   ("Logo", Value.str ""),
   ("MaximumSimultaneousLoans", Value.int 3),
   ("Name", Value.str ""),
   ("OpeningHours", Value.obj defaultOpeningHours),
   ("SpecificBorrowingRules", Value.arr [Value.str ""]),
   ("Theme", Value.obj [("Primary", Value.str ""), ("Secondary", Value.str "")])]

/-- `collectionsToCreate` from `initialization.ts`. -/
def collectionsToCreate : List String :=
  ["BiblioAdmin", "BiblioBooks", "BiblioThesis", "BiblioUser",
   "Configuration", "Departements", "OnlineCourses", "admin"]

/- The `DatabaseInitializer` operations of `initialization.ts`. -/

/-- `DatabaseInitializer.checkIfInitialized`: existence of the
`Configuration/initialized` marker document. The catch clause swallows a
failed read and returns `false`. -/
def checkIfInitialized (s : FireStore) : Bool :=
  match getDocF s "Configuration" "initialized" with
  | Except.ok o => o.isSome
  | Except.error _ => false

/-- The administrator document assembled by `initializeDatabase`: the caller
input spread first, then `role` forced to `super_admin` and a server
timestamp. -/
def adminDocument (name email : String) (now : Nat) : Doc :=
  [("name", Value.str name),
   ("email", Value.str email),
   ("role", Value.str "super_admin"),
   ("createdAt", Value.timestamp now)]

/-- The initialization marker document written by `initializeDatabase`. -/
def initMarker (email : String) (now : Nat) : Doc :=
  [("initialized", Value.bool true),
   ("initializedAt", Value.timestamp now),
   ("initializedBy", Value.str email),
   ("version", Value.str "1.0.0")]

/-- The placeholder document written into each business collection. -/
def placeholderDoc (collectionName : String) (now : Nat) : Doc :=
  [("_placeholder", Value.bool true),
   ("createdAt", Value.timestamp now),
   ("note", Value.str ("Collection " ++ collectionName ++ " initialized"))]

/-- The list of `batch.set` operations queued by `initializeDatabase`, in
source order: admin account, the three settings documents, the marker, then
one placeholder per collection of `collectionsToCreate` other than
`Configuration` and `admin`. -/
def initBatchOps (name email : String) (now : Nat) : List (String × String × Doc) :=
  [("admin", email, adminDocument name email now),
   ("Configuration", "AppSettings", defaultAppSettings),
   ("Configuration", "Notifications", defaultNotificationSettings),
   ("Configuration", "OrgSettings", defaultOrgSettings),
   ("Configuration", "initialized", initMarker email now)]
  ++ (collectionsToCreate.filter
        (fun c => !(c == "Configuration") && !(c == "admin"))).map
      (fun c => (c, "_placeholder", placeholderDoc c now))

/-- Apply a committed batch: each queued `set` in order. -/
def commitBatch (s : FireStore) (ops : List (String × String × Doc)) : FireStore :=
  ops.foldl (fun st op => setDocF st op.1 op.2.1 op.2.2) s

/-- `DatabaseInitializer.initializeDatabase`: queue every document creation in
one write batch and commit it once. `commitOk` says whether the external
store accepts the commit; on rejection the catch clause rethrows the generic
message and, the batch being all-or-nothing, the store is unchanged. Returns
the error message (if any) and the resulting store. -/
def initializeDatabase (s : FireStore) (name email : String) (commitOk : Bool)
    (now : Nat) : Option String × FireStore :=
  if commitOk then (none, commitBatch s (initBatchOps name email now))
  else (some "Failed to initialize database", s)

/-- `DatabaseInitializer.getOrgSettings`: the stored document when present,
the compiled-in default when absent, a generic error on transport failure. -/
def getOrgSettings (s : FireStore) : Except String Doc :=
  match getDocF s "Configuration" "OrgSettings" with
  | Except.ok (some d) => Except.ok d
  | Except.ok none => Except.ok defaultOrgSettings
  | Except.error _ => Except.error "Failed to fetch organization settings"

/-- `DatabaseInitializer.getAppSettings`: the stored document when present,
the compiled-in default when absent, a generic error on transport failure. -/
def getAppSettings (s : FireStore) : Except String Doc :=
  match getDocF s "Configuration" "AppSettings" with
  | Except.ok (some d) => Except.ok d
  | Except.ok none => Except.ok defaultAppSettings
  | Except.error _ => Except.error "Failed to fetch app settings"

/-- `DatabaseInitializer.updateOrgSettings`: read the current document,
object-spread the partial update over it (over the default when absent) and
write the merged document back. -/
def updateOrgSettings (s : FireStore) (settings : Doc) : Except String FireStore :=
  match getDocF s "Configuration" "OrgSettings" with
  | Except.ok (some cur) =>
      Except.ok (setDocF s "Configuration" "OrgSettings" (spread cur settings))
  | Except.ok none =>
      Except.ok (setDocF s "Configuration" "OrgSettings" (spread defaultOrgSettings settings))
  | Except.error _ => Except.error "Failed to update organization settings"

/-- `DatabaseInitializer.updateAppSettings`: same read-merge-write cycle on
the `AppSettings` document. -/
def updateAppSettings (s : FireStore) (settings : Doc) : Except String FireStore :=
  match getDocF s "Configuration" "AppSettings" with
  | Except.ok (some cur) =>
      Except.ok (setDocF s "Configuration" "AppSettings" (spread cur settings))
  | Except.ok none =>
      Except.ok (setDocF s "Configuration" "AppSettings" (spread defaultAppSettings settings))
  | Except.error _ => Except.error "Failed to update app settings"

/- The phase router of the five-phase `SystemInitializer` component. -/

/-- The lifecycle phases of the `SystemInitializer` state machine (the
`loading` phase is transient and not a probe outcome). -/
inductive Phase : Type where
  | needsInitialization
  | needsAuthentication
  | needsConfiguration
  | ready
  | error
deriving DecidableEq, Repr

/-- Evaluation of `orgSettings.Name && orgSettings.Contact.Email` with
JavaScript semantics: short-circuit on a falsy `Name`; reading `.Email` off
an `undefined` `Contact` raises a TypeError (`Except.error`), reading it off
a primitive yields `undefined`. -/
def configuredCheck (org : Doc) : Except Unit Bool :=
  if !(truthy (getField org "Name")) then Except.ok false
  else
    match getField org "Contact" with
    | none => Except.error ()
    | some (Value.obj fields) => Except.ok (truthy (getField fields "Email"))
    | some _ => Except.ok (truthy none)

/-- `checkSystemState` of the five-phase `SystemInitializer`: marker check,
then authentication, then the configured predicate over the fetched
organization settings; any exception inside the probe body is caught and
mapped to the `error` phase. -/
def checkSystemState (s : FireStore) (isAuthenticated : Bool) : Phase :=
  if !(checkIfInitialized s) then Phase.needsInitialization
  else if !isAuthenticated then Phase.needsAuthentication
  else
    match getOrgSettings s with
    | Except.error _ => Phase.error
    | Except.ok org =>
      match configuredCheck org with
      | Except.error _ => Phase.error
      | Except.ok configured =>
        if !configured then Phase.needsConfiguration else Phase.ready

/-- `handleInitializationComplete` of the five-phase `SystemInitializer`:
directly sets the authentication phase. -/
def handleInitializationComplete : Phase := Phase.needsAuthentication

/-- `handleLoginSuccess` of the five-phase `SystemInitializer`: re-runs the
full probe. -/
def handleLoginSuccess (s : FireStore) (isAuthenticated : Bool) : Phase :=
  checkSystemState s isAuthenticated

/-- `handleConfigurationComplete` of the five-phase `SystemInitializer`:
directly sets the ready phase (and routes to the dashboard). -/
def handleConfigurationComplete : Phase := Phase.ready

/-- The organization-settings document the probe and the settings store
effectively operate on: the stored document, or the compiled-in default when
absent. -/
def effectiveOrg (s : FireStore) : Doc :=
  (s.data "Configuration" "OrgSettings").getD defaultOrgSettings

/-- The spec's configured predicate on an organization-settings document:
`Name` non-empty and `Contact.Email` non-empty. -/
def orgConfigured (d : Doc) : Bool :=
  truthy (getField d "Name") &&
    (match getField d "Contact" with
     | some (Value.obj fields) => truthy (getField fields "Email")
     | _ => false)

/-- The application-settings document the settings store effectively operates
on: the stored document, or the compiled-in default when absent. -/
def effectiveApp (s : FireStore) : Doc :=
  (s.data "Configuration" "AppSettings").getD defaultAppSettings

/-- The spec's description of the probe as a function of the
(marker-present, authenticated, configured) triple. -/
def specPhase (markerPresent authenticated configured : Bool) : Phase :=
  if !markerPresent then Phase.needsInitialization
  else if !authenticated then Phase.needsAuthentication
  else if !configured then Phase.needsConfiguration
  else Phase.ready

/- Concrete fixtures used by witnesses and counterexamples. -/

/-- First-match choice on optional field values. -/
def orElseO (a b : Option Value) : Option Value :=
  match a with
  | some v => some v
  | none => b

/-- Last-match lookup of an address in a queued batch. -/
def opsLookup : List (String × String × Doc) → String → String → Option Doc
  | [], _, _ => none
  | op :: t, c, d =>
    match opsLookup t c d with
    | some v => some v
    | none => if op.1 = c ∧ op.2.1 = d then some op.2.2 else none

/-- A store with no documents and no transport failures. -/
def emptyStore : FireStore := ⟨fun _ _ => none, fun _ _ => false⟩

/-- An organization-settings document satisfying the configured predicate. -/
def configuredOrg : Doc :=
  [("Name", Value.str "Central Library"),
   ("Contact", Value.obj [("Email", Value.str "x@y.com")])]

/-- An organization-settings document with a fully populated `Theme`. -/
def themedOrg : Doc :=
  [("Name", Value.str "Central Library"),
   ("Contact", Value.obj [("Email", Value.str "x@y.com")]),
   ("Theme", Value.obj [("Primary", Value.str "#000000"), ("Secondary", Value.str "#FFFFFF")])]

/-- A partial update carrying a `Theme` object that has only `Primary`. -/
def themePartial : Doc := [("Theme", Value.obj [("Primary", Value.str "#FF0000")])]

/-- A store whose marker document exists but whose marker read fails. -/
def failingMarkerStore : FireStore :=
  ⟨fun c d =>
     if c = "Configuration" ∧ d = "initialized" then some (initMarker "a@b.com" 0)
     else if c = "Configuration" ∧ d = "OrgSettings" then some configuredOrg
     else none,
   fun c d => c == "Configuration" && d == "initialized"⟩

/-- A store whose marker is present and readable but whose
organization-settings read fails. -/
def failingOrgStore : FireStore :=
  ⟨fun c d =>
     if c = "Configuration" ∧ d = "initialized" then some (initMarker "a@b.com" 0)
     else none,
   fun c d => c == "Configuration" && d == "OrgSettings"⟩

/-- A store with no documents whose application-settings read fails. -/
def failingAppStore : FireStore :=
  ⟨fun _ _ => none,
   fun c d => c == "Configuration" && d == "AppSettings"⟩

/-- A fully bootstrapped and configured store with no failures. -/
def readyStore : FireStore :=
  ⟨fun c d =>
     if c = "Configuration" ∧ d = "initialized" then some (initMarker "a@b.com" 0)
     else if c = "Configuration" ∧ d = "OrgSettings" then some configuredOrg
     else none,
   fun _ _ => false⟩

/-- A bootstrapped store whose organization settings are still the seeded
defaults (unconfigured), with no failures. -/
def unconfiguredStore : FireStore :=
  ⟨fun c d =>
     if c = "Configuration" ∧ d = "initialized" then some (initMarker "a@b.com" 0)
     else if c = "Configuration" ∧ d = "OrgSettings" then some defaultOrgSettings
     else none,
   fun _ _ => false⟩

/-- A store holding only an organization-settings document with a populated
`Theme`, with no failures. -/
def themedStore : FireStore :=
  ⟨fun c d =>
     if c = "Configuration" ∧ d = "OrgSettings" then some themedOrg
     else none,
   fun _ _ => false⟩

/- Helper lemmas. -/

/-- Looking a field up in a concatenation tries the left part first. -/
theorem getField_append (l1 l2 : Doc) (k : String) :
    getField (l1 ++ l2) k = orElseO (getField l1 k) (getField l2 k) := by
  induction l1 with
  | nil => simp [getField, orElseO]
  | cons kv rest ih =>
    by_cases h : kv.1 = k
    · simp [getField, h, orElseO]
    · simp [getField, h, ih]

/-- Looking a field up in a key-based filtering of a document. -/
theorem getField_filter (b : Doc) (q : String → Bool) (k : String) :
    getField (b.filter (fun kv => q kv.1)) k
      = if q k then getField b k else none := by
  induction b with
  | nil => simp [getField]
  | cons kv rest ih =>
    by_cases hk : kv.1 = k
    · subst hk
      cases hq : q kv.1 <;> simp [List.filter, hq, getField, ih]
    · cases hq : q kv.1 <;> simp [List.filter, hq, getField, hk, ih]

/-- Looking a field up in the override pass of an object spread. -/
theorem getField_map_override (a b : Doc) (k : String) :
    getField (a.map (fun kv => match getField b kv.1 with
      | some v => (kv.1, v)
      | none => kv)) k
      = match getField a k with
        | some v => some ((getField b k).getD v)
        | none => none := by
  induction a with
  | nil => simp [getField]
  | cons kv rest ih =>
    by_cases hk : kv.1 = k
    · subst hk
      cases hb : getField b kv.1 <;> simp [getField, hb]
    · cases hb : getField b kv.1 <;> simp [getField, hk, hb, ih]

/-- Field lookup on a JavaScript object spread: the right operand wins
keywise, the left operand fills the rest. -/
theorem getField_spread (a b : Doc) (k : String) :
    getField (spread a b) k = orElseO (getField b k) (getField a k) := by
  unfold spread
  rw [getField_append, getField_map_override,
      getField_filter b (fun x => (getField a x).isNone) k]
  cases ha : getField a k <;> cases hb : getField b k <;> simp [orElseO, ha, hb]

/-- Data cell of a store after one `setDoc`. -/
theorem setDocF_data (s : FireStore) (c d : String) (document : Doc) (c' d' : String) :
    (setDocF s c d document).data c' d'
      = if c' = c ∧ d' = d then some document else s.data c' d' := rfl

/-- `setDoc` leaves the failure oracle unchanged. -/
theorem setDocF_fail (s : FireStore) (c d : String) (document : Doc) :
    (setDocF s c d document).fail = s.fail := rfl

/-- A committed batch rewrites exactly the addresses it queues, the last
queued `set` per address winning, and leaves every other address alone. -/
theorem commitBatch_data (ops : List (String × String × Doc)) (s : FireStore)
    (c d : String) :
    (commitBatch s ops).data c d
      = match opsLookup ops c d with
        | some v => some v
        | none => s.data c d := by
  induction ops generalizing s with
  | nil => simp [commitBatch, opsLookup]
  | cons op t ih =>
    show (commitBatch (setDocF s op.1 op.2.1 op.2.2) t).data c d = _
    rw [ih]
    cases ht : opsLookup t c d with
    | some v => simp [opsLookup, ht]
    | none =>
      by_cases h : op.1 = c ∧ op.2.1 = d
      · obtain ⟨h1, h2⟩ := h
        subst h1; subst h2
        simp [opsLookup, ht, setDocF_data]
      · have h' : ¬(c = op.1 ∧ d = op.2.1) := fun hc => h ⟨hc.1.symm, hc.2.symm⟩
        simp [opsLookup, ht, h, setDocF_data, h']

/-- A committed batch leaves the failure oracle unchanged. -/
theorem commitBatch_fail (ops : List (String × String × Doc)) (s : FireStore) :
    (commitBatch s ops).fail = s.fail := by
  induction ops generalizing s with
  | nil => rfl
  | cons op t ih =>
    show (commitBatch (setDocF s op.1 op.2.1 op.2.2) t).fail = _
    rw [ih, setDocF_fail]

/-- On a document whose `Contact` key is bound, the probe's configured check
cannot raise and computes the spec's configured predicate. -/
theorem configuredCheck_eq (d : Doc) (h : (getField d "Contact").isSome = true) :
    configuredCheck d = Except.ok (orgConfigured d) := by
  unfold configuredCheck orgConfigured
  cases hn : truthy (getField d "Name") with
  | false => simp
  | true =>
    cases hc : getField d "Contact" with
    | none => rw [hc] at h; simp at h
    | some v => cases v <;> simp [hc, truthy]

/-- A successful `initializeDatabase` writes the administrator document at
the admin email. -/
theorem initData_admin (s : FireStore) (name email : String) (now : Nat) :
    (initializeDatabase s name email true now).2.data "admin" email
      = some (adminDocument name email now) := by
  show (commitBatch s (initBatchOps name email now)).data "admin" email = _
  rw [commitBatch_data]
  have hl : opsLookup (initBatchOps name email now) "admin" email
      = some (adminDocument name email now) := by
    simp [initBatchOps, opsLookup, collectionsToCreate]
  rw [hl]

/-- A successful `initializeDatabase` writes the default application
settings. -/
theorem initData_appSettings (s : FireStore) (name email : String) (now : Nat) :
    (initializeDatabase s name email true now).2.data "Configuration" "AppSettings"
      = some defaultAppSettings := by
  show (commitBatch s (initBatchOps name email now)).data "Configuration" "AppSettings" = _
  rw [commitBatch_data]
  have hl : opsLookup (initBatchOps name email now) "Configuration" "AppSettings"
      = some defaultAppSettings := by
    simp [initBatchOps, opsLookup, collectionsToCreate]
  rw [hl]

/-- A successful `initializeDatabase` writes the default notification
settings. -/
theorem initData_notifications (s : FireStore) (name email : String) (now : Nat) :
    (initializeDatabase s name email true now).2.data "Configuration" "Notifications"
      = some defaultNotificationSettings := by
  show (commitBatch s (initBatchOps name email now)).data "Configuration" "Notifications" = _
  rw [commitBatch_data]
  have hl : opsLookup (initBatchOps name email now) "Configuration" "Notifications"
      = some defaultNotificationSettings := by
    simp [initBatchOps, opsLookup, collectionsToCreate]
  rw [hl]

/-- A successful `initializeDatabase` writes the default organization
settings. -/
theorem initData_orgSettings (s : FireStore) (name email : String) (now : Nat) :
    (initializeDatabase s name email true now).2.data "Configuration" "OrgSettings"
      = some defaultOrgSettings := by
  show (commitBatch s (initBatchOps name email now)).data "Configuration" "OrgSettings" = _
  rw [commitBatch_data]
  have hl : opsLookup (initBatchOps name email now) "Configuration" "OrgSettings"
      = some defaultOrgSettings := by
    simp [initBatchOps, opsLookup, collectionsToCreate]
  rw [hl]

/-- A successful `initializeDatabase` writes the initialization marker. -/
theorem initData_marker (s : FireStore) (name email : String) (now : Nat) :
    (initializeDatabase s name email true now).2.data "Configuration" "initialized"
      = some (initMarker email now) := by
  show (commitBatch s (initBatchOps name email now)).data "Configuration" "initialized" = _
  rw [commitBatch_data]
  have hl : opsLookup (initBatchOps name email now) "Configuration" "initialized"
      = some (initMarker email now) := by
    simp [initBatchOps, opsLookup, collectionsToCreate]
  rw [hl]

/-- When the marker read does not fail, the probe's initialization check
reports the marker's existence. -/
theorem checkIfInitialized_of_ok (s : FireStore)
    (hf : s.fail "Configuration" "initialized" = false) :
    checkIfInitialized s = (s.data "Configuration" "initialized").isSome := by
  unfold checkIfInitialized getDocF
  rw [hf]
  simp

/-- When the organization-settings read does not fail, `getOrgSettings`
returns the effective document. -/
theorem getOrgSettings_of_ok (s : FireStore)
    (hf : s.fail "Configuration" "OrgSettings" = false) :
    getOrgSettings s = Except.ok (effectiveOrg s) := by
  unfold getOrgSettings getDocF effectiveOrg
  rw [hf]
  cases s.data "Configuration" "OrgSettings" <;> simp

/-- C1: on every store state whose two probed reads do not fail (and whose
effective organization-settings document binds `Contact`), `checkSystemState`
is exactly the function of the (marker-present, authenticated, configured)
triple described by the spec: `needsInitialization` iff the marker is absent,
else `needsAuthentication` iff unauthenticated, else `needsConfiguration` iff
the configured predicate (`Name` non-empty and `Contact.Email` non-empty) is
false, else `ready`; being a function of the store and auth state, two runs
over the same contents yield the same phase. -/
theorem checkSystemState_eq_specPhase (s : FireStore) (auth : Bool)
    (hf1 : s.fail "Configuration" "initialized" = false)
    (hf2 : s.fail "Configuration" "OrgSettings" = false)
    (hC : (getField (effectiveOrg s) "Contact").isSome = true) :
    checkSystemState s auth
      = specPhase (s.data "Configuration" "initialized").isSome auth
          (orgConfigured (effectiveOrg s)) := by
  unfold checkSystemState specPhase
  rw [checkIfInitialized_of_ok s hf1, getOrgSettings_of_ok s hf2]
  cases (s.data "Configuration" "initialized").isSome <;>
    cases auth <;> simp [configuredCheck_eq _ hC]

/-- Witness for C1: on the empty store the probe computes the spec triple
function, which evaluates to `needsInitialization`. -/
theorem checkSystemState_eq_specPhase_witness :
    checkSystemState emptyStore true = Phase.needsInitialization :=
  checkSystemState_eq_specPhase emptyStore true rfl rfl rfl

/-- C2 counterexample: a failing read of the InitializationMarker existence
check does not yield the `error` phase — `checkIfInitialized` swallows the
failure into `false`, so the probe reports `needsInitialization` even though
the marker document is present in the store. -/
theorem probeMarkerFailure_counterexample :
    failingMarkerStore.fail "Configuration" "initialized" = true
    ∧ (failingMarkerStore.data "Configuration" "initialized").isSome = true
    ∧ checkSystemState failingMarkerStore true = Phase.needsInitialization
    ∧ checkSystemState failingMarkerStore true ≠ Phase.error :=
  ⟨rfl, rfl, rfl, by decide⟩

/-- C2 amended: a failing organization-settings read makes the probe return
the `error` phase, but a failing InitializationMarker existence check is
swallowed by `checkIfInitialized` (which returns `false`), so the probe
returns `needsInitialization` in that case; a retry re-invokes the same probe
from scratch. -/
theorem probeFailureHandling (s : FireStore) (auth : Bool) :
    (s.fail "Configuration" "initialized" = true →
       checkSystemState s auth = Phase.needsInitialization)
    ∧ (s.fail "Configuration" "initialized" = false →
       (s.data "Configuration" "initialized").isSome = true →
       auth = true →
       s.fail "Configuration" "OrgSettings" = true →
       checkSystemState s auth = Phase.error) := by
  constructor
  · intro h
    unfold checkSystemState checkIfInitialized getDocF
    rw [h]
    simp
  · intro h1 h2 h3 h4
    subst h3
    unfold checkSystemState
    rw [checkIfInitialized_of_ok s h1, h2]
    unfold getOrgSettings getDocF
    rw [h4]
    simp

/-- Witness for the amended C2: the marker-read failure yields
`needsInitialization` on one concrete store, the organization-settings read
failure yields `error` on another. -/
theorem probeFailureHandling_witness :
    checkSystemState failingMarkerStore true = Phase.needsInitialization
    ∧ checkSystemState failingOrgStore true = Phase.error :=
  ⟨(probeFailureHandling failingMarkerStore true).1 rfl,
   (probeFailureHandling failingOrgStore true).2 rfl rfl rfl rfl⟩

/-- C3 counterexample: two completion handlers do not re-probe. On a fully
configured, authenticated store the probe says `ready`, yet
`handleInitializationComplete` unconditionally sets `needsAuthentication`;
on a still-unconfigured store the probe says `needsConfiguration`, yet
`handleConfigurationComplete` unconditionally sets `ready`. -/
theorem routerOptimistic_counterexample :
    checkSystemState readyStore true = Phase.ready
    ∧ handleInitializationComplete ≠ checkSystemState readyStore true
    ∧ checkSystemState unconfiguredStore true = Phase.needsConfiguration
    ∧ handleConfigurationComplete ≠ checkSystemState unconfiguredStore true :=
  ⟨rfl, by decide, rfl, by decide⟩

/-- C3 amended: of the three completion handlers only `handleLoginSuccess`
re-runs the full probe; `handleInitializationComplete` directly sets the
`needsAuthentication` phase and `handleConfigurationComplete` directly sets
the `ready` phase, without consulting the store. -/
theorem routerTransitions (s : FireStore) (auth : Bool) :
    handleLoginSuccess s auth = checkSystemState s auth
    ∧ handleInitializationComplete = Phase.needsAuthentication
    ∧ handleConfigurationComplete = Phase.ready :=
  ⟨rfl, rfl, rfl⟩

/-- C4: `initializeDatabase` queues the administrator account, the three
settings documents, the InitializationMarker and one placeholder per business
collection in one single batch and commits once. If the commit is rejected,
the operation returns the generic initialization-failed error, the store is
exactly unchanged (no document created) and the probe still reports
`needsInitialization`; if it is accepted, every queued document (the marker
included) is present and no other address changed. -/
theorem initializeDatabase_atomic (s : FireStore) (name email : String)
    (now : Nat) (auth : Bool)
    (hm : s.data "Configuration" "initialized" = none)
    (hf : s.fail "Configuration" "initialized" = false) :
    initializeDatabase s name email false now
      = (some "Failed to initialize database", s)
    ∧ checkSystemState s auth = Phase.needsInitialization
    ∧ (initializeDatabase s name email true now).2.data "admin" email
        = some (adminDocument name email now)
    ∧ (initializeDatabase s name email true now).2.data "Configuration" "AppSettings"
        = some defaultAppSettings
    ∧ (initializeDatabase s name email true now).2.data "Configuration" "Notifications"
        = some defaultNotificationSettings
    ∧ (initializeDatabase s name email true now).2.data "Configuration" "OrgSettings"
        = some defaultOrgSettings
    ∧ (initializeDatabase s name email true now).2.data "Configuration" "initialized"
        = some (initMarker email now)
    ∧ (∀ c, c ∈ collectionsToCreate → c ≠ "Configuration" → c ≠ "admin" →
        (initializeDatabase s name email true now).2.data c "_placeholder"
          = some (placeholderDoc c now))
    ∧ (∀ c d, opsLookup (initBatchOps name email now) c d = none →
        (initializeDatabase s name email true now).2.data c d = s.data c d) := by
  refine ⟨rfl, ?_, initData_admin s name email now, initData_appSettings s name email now,
    initData_notifications s name email now, initData_orgSettings s name email now,
    initData_marker s name email now, ?_, ?_⟩
  · unfold checkSystemState
    rw [checkIfInitialized_of_ok s hf, hm]
    simp
  · intro c hc h1 h2
    simp only [collectionsToCreate, List.mem_cons, List.not_mem_nil, or_false] at hc
    rcases hc with rfl | rfl | rfl | rfl | rfl | rfl | rfl | rfl
    all_goals first
      | rfl
      | exact absurd rfl h1
      | exact absurd rfl h2
  · intro c d h
    show (commitBatch s (initBatchOps name email now)).data c d = s.data c d
    rw [commitBatch_data, h]

/-- Witness for C4: concrete rejected commit on the empty store. -/
theorem initializeDatabase_atomic_witness :
    initializeDatabase emptyStore "A" "a@b.com" false 0
      = (some "Failed to initialize database", emptyStore)
    ∧ checkSystemState emptyStore false = Phase.needsInitialization :=
  ⟨(initializeDatabase_atomic emptyStore "A" "a@b.com" 0 false rfl rfl).1,
   (initializeDatabase_atomic emptyStore "A" "a@b.com" 0 false rfl rfl).2.1⟩

/-- C5: `initializeDatabase` is idempotent for administrator records under
retry with the same email: starting from a store with no administrator
documents, two successful runs with the same name and email leave exactly one
administrator document, the one keyed by that email (the key forces the
second run to overwrite, not duplicate). -/
theorem initializeDatabase_idempotentAdmin (s : FireStore) (name email : String)
    (n1 n2 : Nat) (h : ∀ id, s.data "admin" id = none) :
    (initializeDatabase
        ((initializeDatabase s name email true n1).2) name email true n2).2.data
      "admin" email = some (adminDocument name email n2)
    ∧ (∀ id, id ≠ email →
        (initializeDatabase
            ((initializeDatabase s name email true n1).2) name email true n2).2.data
          "admin" id = none) := by
  have key : ∀ (t : FireStore) (n : Nat) (id : String),
      (initializeDatabase t name email true n).2.data "admin" id
        = if id = email then some (adminDocument name email n)
          else t.data "admin" id := by
    intro t n id
    show (commitBatch t (initBatchOps name email n)).data "admin" id = _
    rw [commitBatch_data]
    by_cases hid : id = email
    · have hl : opsLookup (initBatchOps name email n) "admin" id
          = some (adminDocument name email n) := by
        subst hid
        simp [initBatchOps, opsLookup, collectionsToCreate]
      rw [hl, if_pos hid]
    · have hl : opsLookup (initBatchOps name email n) "admin" id = none := by
        simp [initBatchOps, opsLookup, collectionsToCreate, Ne.symm hid]
      rw [hl, if_neg hid]
  constructor
  · rw [key, if_pos rfl]
  · intro id hid
    rw [key, if_neg hid, key, if_neg hid, h]

/-- Witness for C5: two concrete runs on the empty store leave one
administrator document at the given email and none elsewhere. -/
theorem initializeDatabase_idempotentAdmin_witness :
    (initializeDatabase
        ((initializeDatabase emptyStore "A" "a@b.com" true 0).2) "A" "a@b.com" true 1).2.data
      "admin" "a@b.com" = some (adminDocument "A" "a@b.com" 1)
    ∧ (initializeDatabase
        ((initializeDatabase emptyStore "A" "a@b.com" true 0).2) "A" "a@b.com" true 1).2.data
      "admin" "other" = none :=
  ⟨(initializeDatabase_idempotentAdmin emptyStore "A" "a@b.com" 0 1 (fun _ => rfl)).1,
   (initializeDatabase_idempotentAdmin emptyStore "A" "a@b.com" 0 1 (fun _ => rfl)).2
     "other" (by decide)⟩

/-- C6: for every prior store state and partial input, `update` then `get`
round-trips to the object spread of the partial over the previous document
(the compiled-in default standing in when no document exists): every
top-level key holds the partial's value when the partial binds it and the
previous document's value otherwise. The merge is shallow: a partial whose
`Theme` is an object binding only `Primary` makes the stored `Theme` exactly
that object, dropping any previously stored `Theme.Secondary`. The same
holds for `updateAppSettings`/`getAppSettings`. -/
theorem updateRoundTrip (s : FireStore) (x : Doc)
    (hfo : s.fail "Configuration" "OrgSettings" = false)
    (hfa : s.fail "Configuration" "AppSettings" = false) :
    (updateOrgSettings s x
       = Except.ok (setDocF s "Configuration" "OrgSettings" (spread (effectiveOrg s) x))
     ∧ getOrgSettings
         (setDocF s "Configuration" "OrgSettings" (spread (effectiveOrg s) x))
       = Except.ok (spread (effectiveOrg s) x)
     ∧ ∀ k, getField (spread (effectiveOrg s) x) k
         = orElseO (getField x k) (getField (effectiveOrg s) k))
    ∧ (updateAppSettings s x
       = Except.ok (setDocF s "Configuration" "AppSettings" (spread (effectiveApp s) x))
     ∧ getAppSettings
         (setDocF s "Configuration" "AppSettings" (spread (effectiveApp s) x))
       = Except.ok (spread (effectiveApp s) x)
     ∧ ∀ k, getField (spread (effectiveApp s) x) k
         = orElseO (getField x k) (getField (effectiveApp s) k))
    ∧ (∀ tf, getField x "Theme" = some (Value.obj tf) →
        getField (spread (effectiveOrg s) x) "Theme" = some (Value.obj tf)) := by
  refine ⟨⟨?_, ?_, fun k => getField_spread _ _ k⟩,
          ⟨?_, ?_, fun k => getField_spread _ _ k⟩, ?_⟩
  · unfold updateOrgSettings getDocF effectiveOrg
    rw [hfo]
    cases s.data "Configuration" "OrgSettings" <;> simp
  · unfold getOrgSettings getDocF
    rw [setDocF_fail, hfo]
    simp [setDocF_data]
  · unfold updateAppSettings getDocF effectiveApp
    rw [hfa]
    cases s.data "Configuration" "AppSettings" <;> simp
  · unfold getAppSettings getDocF
    rw [setDocF_fail, hfa]
    simp [setDocF_data]
  · intro tf htf
    rw [getField_spread, htf]
    rfl

/-- Witness for C6: merging a partial whose `Theme` has only `Primary` over a
stored document whose `Theme` also had `Secondary` leaves exactly the
partial's `Theme` object — `Secondary` is dropped. -/
theorem updateRoundTrip_witness :
    getField (spread (effectiveOrg themedStore) themePartial) "Theme"
      = some (Value.obj [("Primary", Value.str "#FF0000")]) :=
  (updateRoundTrip themedStore themePartial rfl rfl).2.2 _ rfl

/-- C7: `getOrgSettings` (and `getAppSettings`) returns the stored document
when present and the compiled-in default (whose `Name` is the empty string)
when absent — absence is never an error; the operation throws exactly on
transport failure, with the generic failed-to-fetch message. -/
theorem getSettings_total (s : FireStore) :
    (s.fail "Configuration" "OrgSettings" = false →
       getOrgSettings s
         = Except.ok ((s.data "Configuration" "OrgSettings").getD defaultOrgSettings))
    ∧ (s.fail "Configuration" "OrgSettings" = true →
       getOrgSettings s = Except.error "Failed to fetch organization settings")
    ∧ (s.fail "Configuration" "AppSettings" = false →
       getAppSettings s
         = Except.ok ((s.data "Configuration" "AppSettings").getD defaultAppSettings))
    ∧ (s.fail "Configuration" "AppSettings" = true →
       getAppSettings s = Except.error "Failed to fetch app settings")
    ∧ getField defaultOrgSettings "Name" = some (Value.str "") := by
  refine ⟨fun h => getOrgSettings_of_ok s h, ?_, ?_, ?_, rfl⟩
  · intro h
    unfold getOrgSettings getDocF
    rw [h]
    simp
  · intro h
    unfold getAppSettings getDocF
    rw [h]
    cases s.data "Configuration" "AppSettings" <;> simp
  · intro h
    unfold getAppSettings getDocF
    rw [h]
    simp

/-- Witness for C7: on the empty store both getters fall back to their
defaults; on stores whose own read fails they throw the generic message. -/
theorem getSettings_total_witness :
    getOrgSettings emptyStore = Except.ok defaultOrgSettings
    ∧ getOrgSettings failingOrgStore
        = Except.error "Failed to fetch organization settings"
    ∧ getAppSettings emptyStore = Except.ok defaultAppSettings
    ∧ getAppSettings failingAppStore = Except.error "Failed to fetch app settings" :=
  ⟨(getSettings_total emptyStore).1 rfl,
   (getSettings_total failingOrgStore).2.1 rfl,
   (getSettings_total emptyStore).2.2.1 rfl,
   (getSettings_total failingAppStore).2.2.2.1 rfl⟩

/-- C8: after a successful `initializeDatabase`, the administrator document
carries role `super_admin` regardless of input, the organization settings
equal the fixed defaults (empty `Logo`, `MaximumSimultaneousLoans` 3, weekday
hours open 08:00 / close 18:00, Saturday 10:00 to 18:00, Sunday the closed
sentinel on both fields), and the marker has `initialized` true and
`initializedBy` equal to the given email. -/
theorem initializeDefaults (s : FireStore) (name email : String) (now : Nat) :
    (initializeDatabase s name email true now).2.data "admin" email
      = some (adminDocument name email now)
    ∧ getField (adminDocument name email now) "role" = some (Value.str "super_admin")
    ∧ (initializeDatabase s name email true now).2.data "Configuration" "OrgSettings"
      = some defaultOrgSettings
    ∧ getField defaultOrgSettings "Logo" = some (Value.str "")
    ∧ getField defaultOrgSettings "MaximumSimultaneousLoans" = some (Value.int 3)
    ∧ getField defaultOrgSettings "OpeningHours" = some (Value.obj defaultOpeningHours)
    ∧ getField defaultOpeningHours "Monday" = some (Value.str weekdayHours)
    ∧ getField defaultOpeningHours "Tuesday" = some (Value.str weekdayHours)
    ∧ getField defaultOpeningHours "Wednesday" = some (Value.str weekdayHours)
    ∧ getField defaultOpeningHours "Thursday" = some (Value.str weekdayHours)
    ∧ getField defaultOpeningHours "Friday" = some (Value.str weekdayHours)
    ∧ getField defaultOpeningHours "Saturday" = some (Value.str saturdayHours)
    ∧ getField defaultOpeningHours "Sunday" = some (Value.str sundayClosed)
    ∧ weekdayHours = "\x7b\"open\": \"08:00\", \"close\": \"18:00\"\x7d"
    ∧ saturdayHours = "\x7b\"open\": \"10:00\", \"close\": \"18:00\"\x7d"
    ∧ sundayClosed = "\x7b\"open\": \"closed\", \"close\": \"closed\"\x7d"
    ∧ (initializeDatabase s name email true now).2.data "Configuration" "initialized"
      = some (initMarker email now)
    ∧ getField (initMarker email now) "initialized" = some (Value.bool true)
    ∧ getField (initMarker email now) "initializedBy" = some (Value.str email) :=
  ⟨initData_admin s name email now, rfl, initData_orgSettings s name email now,
   rfl, rfl, rfl, rfl, rfl, rfl, rfl, rfl, rfl, rfl, rfl, rfl, rfl,
   initData_marker s name email now, rfl, rfl⟩

/-- C9: the two settings aggregates are independent. A successful update of
one aggregate rewrites only that aggregate's document (every other address
and the failure oracle are unchanged); each getter's result depends only on
its own document cell; and when an aggregate's own read does not fail its
getter succeeds whatever the other document's presence. -/
theorem settingsIndependence (s : FireStore) (x : Doc) :
    (∀ s', updateOrgSettings s x = Except.ok s' →
       s'.fail = s.fail
       ∧ ∀ c d, ¬(c = "Configuration" ∧ d = "OrgSettings") → s'.data c d = s.data c d)
    ∧ (∀ s', updateAppSettings s x = Except.ok s' →
       s'.fail = s.fail
       ∧ ∀ c d, ¬(c = "Configuration" ∧ d = "AppSettings") → s'.data c d = s.data c d)
    ∧ (∀ t : FireStore,
       t.data "Configuration" "OrgSettings" = s.data "Configuration" "OrgSettings" →
       t.fail "Configuration" "OrgSettings" = s.fail "Configuration" "OrgSettings" →
       getOrgSettings t = getOrgSettings s)
    ∧ (∀ t : FireStore,
       t.data "Configuration" "AppSettings" = s.data "Configuration" "AppSettings" →
       t.fail "Configuration" "AppSettings" = s.fail "Configuration" "AppSettings" →
       getAppSettings t = getAppSettings s)
    ∧ (s.fail "Configuration" "OrgSettings" = false →
       ∃ r, getOrgSettings s = Except.ok r)
    ∧ (s.fail "Configuration" "AppSettings" = false →
       ∃ r, getAppSettings s = Except.ok r) := by
  refine ⟨?_, ?_, ?_, ?_, ?_, ?_⟩
  · intro s' h
    unfold updateOrgSettings getDocF at h
    cases hf : s.fail "Configuration" "OrgSettings" with
    | true => rw [hf] at h; simp at h
    | false =>
      rw [hf] at h
      cases hd : s.data "Configuration" "OrgSettings" <;>
        rw [hd] at h <;> simp at h <;>
          exact h ▸ ⟨setDocF_fail s _ _ _, fun c d hcd => by simp [setDocF_data, hcd]⟩
  · intro s' h
    unfold updateAppSettings getDocF at h
    cases hf : s.fail "Configuration" "AppSettings" with
    | true => rw [hf] at h; simp at h
    | false =>
      rw [hf] at h
      cases hd : s.data "Configuration" "AppSettings" <;>
        rw [hd] at h <;> simp at h <;>
          exact h ▸ ⟨setDocF_fail s _ _ _, fun c d hcd => by simp [setDocF_data, hcd]⟩
  · intro t hd hf
    unfold getOrgSettings getDocF
    rw [hd, hf]
  · intro t hd hf
    unfold getAppSettings getDocF
    rw [hd, hf]
  · intro h
    rw [getOrgSettings_of_ok s h]
    exact ⟨_, rfl⟩
  · intro h
    unfold getAppSettings getDocF
    rw [h]
    cases s.data "Configuration" "AppSettings" <;> exact ⟨_, rfl⟩

/-- Witness for C9: updating organization settings on the empty store leaves
the application-settings cell untouched, and both getters succeed on the
empty store where neither document exists. -/
theorem settingsIndependence_witness :
    (setDocF emptyStore "Configuration" "OrgSettings"
        (spread defaultOrgSettings themePartial)).data "Configuration" "AppSettings"
      = emptyStore.data "Configuration" "AppSettings"
    ∧ (∃ r, getOrgSettings emptyStore = Except.ok r)
    ∧ (∃ r, getAppSettings emptyStore = Except.ok r) :=
  ⟨((settingsIndependence emptyStore themePartial).1
      (setDocF emptyStore "Configuration" "OrgSettings"
        (spread defaultOrgSettings themePartial)) rfl).2
      "Configuration" "AppSettings" (by decide),
   (settingsIndependence emptyStore themePartial).2.2.2.2.1 rfl,
   (settingsIndependence emptyStore themePartial).2.2.2.2.2 rfl⟩

/-- C10: the compiled-in application-settings default has `MaintenanceMode`
true (with `AppVersion` 1, `DefaultLoanDuration` 21, `GlobalLimits` 5); it is
the document written at bootstrap and the fallback `getAppSettings` returns
against a store with no such document, so both report maintenance mode on. -/
theorem maintenanceModeDefault (s : FireStore) :
    getField defaultAppSettings "MaintenanceMode" = some (Value.bool true)
    ∧ getField defaultAppSettings "AppVersion" = some (Value.int 1)
    ∧ getField defaultAppSettings "DefaultLoanDuration" = some (Value.int 21)
    ∧ getField defaultAppSettings "GlobalLimits" = some (Value.int 5)
    ∧ (∀ name email now,
        (initializeDatabase s name email true now).2.data "Configuration" "AppSettings"
          = some defaultAppSettings)
    ∧ (s.data "Configuration" "AppSettings" = none →
       s.fail "Configuration" "AppSettings" = false →
       getAppSettings s = Except.ok defaultAppSettings) := by
  refine ⟨rfl, rfl, rfl, rfl,
    fun name email now => initData_appSettings s name email now, ?_⟩
  intro h1 h2
  unfold getAppSettings getDocF
  rw [h2, h1]
  simp

/-- Witness for C10: `getAppSettings` on the empty store returns the default
document, whose `MaintenanceMode` is true. -/
theorem maintenanceModeDefault_witness :
    getAppSettings emptyStore = Except.ok defaultAppSettings :=
  (maintenanceModeDefault emptyStore).2.2.2.2.2 rfl rfl

end Biblioteca
